import Mathlib

/- Shallow embedding of the media timeline composition engine of the
Umrav/AutomatedTikToks repository (src/lib/generate_video.py,
src/lib/generate_audio.py, src/create_advice_tiktok.py,
src/create_qna_tiktok.py). Time is modelled with rationals, file names with
strings, and every random draw with an explicit natural-number index taken
modulo the size of the candidate set, so that all definitions stay
executable. Raising paths of the Python code are modelled with Option and
Except values. -/

namespace AutomatedTikToks

/-- Python str.endswith(suffix): the character sequence of suffix is a
suffix of the character sequence of v. -/
def endswith (v suffix : String) : Bool :=
  suffix.data.isSuffixOf v.data

/-- Translation of VideoGenerator.pick_random_video
(src/lib/generate_video.py lines 32-62). The directory listing is the list
entries; the content of the persisted last-used marker file, already
stripped, is marker, with none modelling the IOError branch taken when the
file is absent. random.choice over a nonempty list is modelled by an
arbitrary index ix reduced modulo the list length; choice over an empty
list raises IndexError and the empty eligible case raises ValueError, both
modelled as none. On success the code writes the chosen bare filename to
the marker file and returns its joined path; since the directory is fixed,
the bare filename (which is exactly the value written to the marker)
stands for both. -/
def pick_random_video (entries : List String) (marker : Option String) (ix : ℕ) :
    Option String :=
  let video_files := entries.filter (fun v => endswith v ".mp4")
  if video_files.isEmpty then
    none
  else
    let video_files :=
      match marker with
      | none => video_files
      | some last_video_file_used =>
        video_files.filter (fun v => v ≠ last_video_file_used)
    video_files[ix % video_files.length]?

/-- Python randrange(0, stop, step) for positive step: a uniformly random
element of range(0, stop, step), that is step * k for 0 ≤ k < ⌈stop/step⌉;
it raises ValueError when the range is empty, which for positive step means
stop ≤ 0. The random draw is modelled by the index ix reduced modulo the
range size. -/
def randrange (stop step : ℤ) (ix : ℕ) : Option ℤ :=
  if stop ≤ 0 then none
  else some (step * ((ix : ℤ) % ((stop + step - 1) / step)))

/-- Timing content of VideoGenerator.crop_video_to_tiktok_format
(src/lib/generate_video.py lines 64-105): random_point =
randrange(0, int(video.duration) - subclip_length, subclip_length), and the
subclip spans random_point to random_point + subclip_length. Python int()
truncates toward zero, which equals the floor for the nonnegative durations
of real clips. The spatial resize, crop and volume change carry no timing
content and are omitted. -/
def crop_video_to_tiktok_format (video_duration : ℚ) (subclip_length : ℤ)
    (ix : ℕ) : Option (ℤ × ℤ) :=
  (randrange (⌊video_duration⌋ - subclip_length) subclip_length ix).map
    (fun random_point => (random_point, random_point + subclip_length))

/-- Timing content of VideoGenerator.add_ending_message
(src/lib/generate_video.py lines 147-179): given the duration of the
composed video and the cursor lst_msg_timestamp, the ending credit starts
at lst_msg_timestamp, lasts min(video_duration - lst_msg_timestamp, 3),
and the composite is trimmed with
set_duration(lst_msg_timestamp + end_msg_duration). Returns
(closing start, closing duration, final total duration). -/
def add_ending_message (video_duration lst_msg_timestamp : ℚ) : ℚ × ℚ × ℚ :=
  let end_msg_duration := min (video_duration - lst_msg_timestamp) 3
  (lst_msg_timestamp, end_msg_duration, lst_msg_timestamp + end_msg_duration)

/-- The admission loop of VideoGenerator.write_multi_text_to_video
(src/lib/generate_video.py lines 248-279): for each text in list order, if
current_text_offset + text_duration <= max_vid_length then a clip is placed
at the current offset and the offset advances by
text_duration + time_offset; otherwise the body of the if is skipped and
the loop continues with the next text (the loop has no break statement).
Only the audio durations matter for timing, so a text dict is represented
by its audio duration. Returns the placed (start_offset, duration) pairs in
order together with the final offset. -/
def admitSegments (max_vid_length time_offset : ℚ) :
    ℚ → List ℚ → List (ℚ × ℚ) × ℚ
  | current_text_offset, [] => ([], current_text_offset)
  | current_text_offset, text_duration :: rest =>
    if current_text_offset + text_duration ≤ max_vid_length then
      let r := admitSegments max_vid_length time_offset
        (current_text_offset + text_duration + time_offset) rest
      ((current_text_offset, text_duration) :: r.1, r.2)
    else
      admitSegments max_vid_length time_offset current_text_offset rest

/-- The timing data produced by composing the title, the admitted text
segments and the closing card. -/
structure TimelinePlan where
  titleEnd : ℚ
  segments : List (ℚ × ℚ)
  closingStart : ℚ
  closingDuration : ℚ
  totalDuration : ℚ
deriving DecidableEq

/-- Timing content of VideoGenerator.write_title_to_video
(src/lib/generate_video.py lines 181-222): the title clip starts at 0 and
stays for title_duration + title_buffer seconds, and that value is returned
as the offset where the body texts start. Returns
(title start, returned offset). -/
def write_title_to_video (title_duration title_buffer : ℚ) : ℚ × ℚ :=
  (0, title_duration + title_buffer)

/-- Timing content of VideoGenerator.write_multi_text_to_video
(src/lib/generate_video.py lines 224-286): run the admission loop starting
at title_offset, then call add_ending_message with the duration of the
composed video and the final offset. Every intermediate composite is
trimmed with set_duration(video.duration), so the duration reaching
add_ending_message is the background subclip duration, which the callers
(lines 308-392) make equal to max_vid_length. -/
def write_multi_text_to_video (title_offset : ℚ) (durations : List ℚ)
    (max_vid_length time_offset : ℚ) : TimelinePlan :=
  let r := admitSegments max_vid_length time_offset title_offset durations
  let e := add_ending_message max_vid_length r.2
  ⟨title_offset, r.1, e.1, e.2.1, e.2.2⟩

/-- The batch loop shared by generate_advice_tiktok_video
(src/create_advice_tiktok.py lines 48-82) and generate_qna_tiktok_video
(src/create_qna_tiktok.py lines 46-80): the try block encloses the whole
for loop over submissions, so the first submission that raises transfers
control to the except handler, which prints the error type and message, and
the loop never resumes. A submission is modelled by the outcome of fully
processing it: Except.ok () when audio and video generation complete,
Except.error msg when it raises. Returns the number of submissions fully
processed (those whose success line printed) together with the reported
error message when one was caught. -/
def runSubmissionLoop : List (Except String Unit) → ℕ × Option String
  | [] => (0, none)
  | Except.ok _ :: rest =>
    let r := runSubmissionLoop rest
    (r.1 + 1, r.2)
  | Except.error msg :: _ => (0, some msg)

/-- generate_advice_tiktok_video of src/create_advice_tiktok.py
(lines 48-82), reduced to its batch control flow. -/
def generate_advice_tiktok_video (batch : List (Except String Unit)) :
    ℕ × Option String :=
  runSubmissionLoop batch

/-- generate_qna_tiktok_video of src/create_qna_tiktok.py (lines 46-80),
reduced to its batch control flow, identical to the advice variant. -/
def generate_qna_tiktok_video (batch : List (Except String Unit)) :
    ℕ × Option String :=
  runSubmissionLoop batch

/-- Python re.sub with the single-star pattern: every star character is
replaced by repl, every other character is kept. Defined on the character
list of the string. -/
def subStar (repl : List Char) : List Char → List Char
  | [] => []
  | c :: rest =>
    if c = '*' then repl ++ subStar repl rest else c :: subStar repl rest

/-- Python re.sub with the two-or-more-stars pattern: every maximal run of
at least two stars is replaced by repl (the regex quantifier is greedy, so
a whole run is one match), while a lone star is left unchanged. The
argument pending counts the stars of the run currently being scanned. -/
def subStarRunsAux (repl : List Char) : ℕ → List Char → List Char
  | pending, [] => if 2 ≤ pending then repl else List.replicate pending '*'
  | pending, c :: rest =>
    if c = '*' then subStarRunsAux repl (pending + 1) rest
    else
      (if 2 ≤ pending then repl else List.replicate pending '*')
        ++ c :: subStarRunsAux repl 0 rest

/-- Python re.sub with the two-or-more-stars pattern, starting outside any
star run. -/
def subStarRuns (repl : List Char) (l : List Char) : List Char :=
  subStarRunsAux repl 0 l

/-- AudioGenerator.sanitize_sentence_for_gtts (src/lib/generate_audio.py
lines 57-67): beeped_sentence is computed by substituting runs of two or
more stars with the word beep, but the return statement applies the
single-star deletion to the original censored_sentence, so the beep
substitution is discarded. -/
def sanitize_sentence_for_gtts (censored_sentence : String) : String :=
  let beeped_sentence := String.mk (subStarRuns ("beep".data) censored_sentence.data)
  String.mk (subStar [] censored_sentence.data)

/-- The random draws consumed by one video generation: the index used by
random.choice in pick_random_video and the index used by randrange in
crop_video_to_tiktok_format. -/
structure Randomness where
  choiceIx : ℕ
  cropIx : ℕ

/-- The deterministic inputs of
VideoGenerator.generate_video_from_qna_submission: the background
directory listing and marker state, the duration of each background file
(probed by VideoFileClip), the title audio duration, the title buffer of
the VideoGenerator instance, the audio durations of the comment texts, and
the maximum video length. -/
structure QnaSubmission where
  entries : List String
  marker : Option String
  bgDuration : String → ℚ
  title_duration : ℚ
  title_buffer : ℚ
  durations : List ℚ
  max_vid_length : ℤ

/-- Timing content of VideoGenerator.generate_video_from_qna_submission
(src/lib/generate_video.py lines 308-349): pick a random background, crop
a random window of length max_vid_length from it, place the title, then
run write_multi_text_to_video with a 0.5 second gap between answers.
Returns the chosen background window and the timeline plan; none models
the raising paths (no eligible background, empty candidate list, or a
background too short for the requested window). -/
def generate_video_from_qna_submission (r : Randomness) (x : QnaSubmission) :
    Option ((ℤ × ℤ) × TimelinePlan) :=
  match pick_random_video x.entries x.marker r.choiceIx with
  | none => none
  | some background_video =>
    match crop_video_to_tiktok_format (x.bgDuration background_video)
        x.max_vid_length r.cropIx with
    | none => none
    | some window =>
      let t := write_title_to_video x.title_duration x.title_buffer
      some (window,
        write_multi_text_to_video t.2 x.durations (x.max_vid_length : ℚ) (1/2))

/-- Concrete submission used to witness that two different random draws
produce the same timeline plan: two eligible backgrounds of 200 seconds
each, title audio of 5 seconds with the default 0.8 second buffer, three
comment audios of 10 seconds, and a 90 second limit. -/
def qnaExample : QnaSubmission where
  entries := ["a.mp4", "b.mp4"]
  marker := none
  bgDuration := fun _ => 200
  title_duration := 5
  title_buffer := 8/10
  durations := [10, 10, 10]
  max_vid_length := 90

/-- Auxiliary: the final offset of the admission loop equals the starting
offset plus the footprint (duration plus gap) of every admitted segment. -/
theorem admitSegments_final_offset (max_vid_length time_offset : ℚ)
    (durations : List ℚ) : ∀ current_text_offset : ℚ,
    (admitSegments max_vid_length time_offset current_text_offset durations).2 =
      current_text_offset +
        ((admitSegments max_vid_length time_offset current_text_offset durations).1.map
          (fun sd => sd.2 + time_offset)).sum := by
  induction durations with
  | nil => intro c; simp [admitSegments]
  | cons d rest ih =>
    intro c
    by_cases h : c + d ≤ max_vid_length
    · simp only [admitSegments, if_pos h]
      rw [ih (c + d + time_offset)]
      simp only [List.map_cons, List.sum_cons]
      ring
    · simp only [admitSegments, if_neg h]
      exact ih c

/-- C1 (counterexample): with max_vid_length = 15, gap = 0.5 and cursor 5.8
after the title, the first segment (duration 10) fails the budget check,
yet the later, shorter segment (duration 2) that fits under the remaining
budget is admitted at the unchanged cursor: the loop does not terminate
early, refuting the claim that every segment after the first failure is
skipped. -/
theorem C1_counterexample :
    ¬ ((29 : ℚ)/5 + 10 ≤ 15) ∧ ((29 : ℚ)/5 + 2 ≤ 15) ∧
    (admitSegments 15 (1/2) (29/5) [10, 2]).1 = [(29/5, 2)] := by
  norm_num [admitSegments]

/-- C1 (amended): once a segment fails the budget check
cursor + duration <= max_length, only that segment is dropped and the
cursor is unchanged; the remaining segments are processed exactly as if
the failing one were absent, and in particular a later, shorter segment
that fits under the remaining budget is admitted at the current cursor
(skip-and-continue, not early termination). -/
theorem C1_failed_segment_skipped_loop_continues
    (max_vid_length time_offset current_text_offset d1 : ℚ) (rest : List ℚ)
    (h1 : ¬ current_text_offset + d1 ≤ max_vid_length) :
    admitSegments max_vid_length time_offset current_text_offset (d1 :: rest) =
      admitSegments max_vid_length time_offset current_text_offset rest ∧
    (∀ d2 rest2, rest = d2 :: rest2 →
      current_text_offset + d2 ≤ max_vid_length →
      (admitSegments max_vid_length time_offset current_text_offset
        (d1 :: rest)).1.head? = some (current_text_offset, d2)) := by
  constructor
  · simp [admitSegments, h1]
  · rintro d2 rest2 rfl h2
    simp [admitSegments, h1, h2]

/-- C1 (witness for the amended theorem). -/
theorem C1_failed_segment_skipped_loop_continues_witness :
    (admitSegments 15 (1/2) (29/5) [10, 2] = admitSegments 15 (1/2) (29/5) [2]) ∧
    (∀ d2 rest2, ([2] : List ℚ) = d2 :: rest2 → 29/5 + d2 ≤ 15 →
      (admitSegments 15 (1/2) (29/5) [10, 2]).1.head? = some (29/5, d2)) :=
  C1_failed_segment_skipped_loop_continues 15 (1/2) (29/5) 10 [2] (by norm_num)

/-- Auxiliary: the batch loop processes exactly the longest prefix of
non-raising submissions and reports the message of the first raising one. -/
theorem runSubmissionLoop_eq (batch : List (Except String Unit)) :
    runSubmissionLoop batch =
      ((batch.takeWhile fun r => r.toOption.isSome).length,
        ((batch.dropWhile fun r => r.toOption.isSome).head?).bind fun r =>
          match r with
          | Except.ok _ => none
          | Except.error msg => some msg) := by
  induction batch with
  | nil => rfl
  | cons r rest ih =>
    cases r with
    | ok u =>
      simp [runSubmissionLoop, List.takeWhile_cons, List.dropWhile_cons,
        Except.toOption, ih]
    | error msg =>
      simp [runSubmissionLoop, List.takeWhile_cons, List.dropWhile_cons,
        Except.toOption]

/-- C2 (counterexample): in a batch whose first submission raises and whose
second submission would succeed, both pipeline variants process zero
submissions: the submission after the failing one is not planned and not
written, refuting batch-level fault isolation. The error is still caught
and reported. -/
theorem C2_counterexample :
    generate_advice_tiktok_video [Except.error "boom", Except.ok ()] =
      (0, some "boom") ∧
    generate_qna_tiktok_video [Except.error "boom", Except.ok ()] =
      (0, some "boom") := by
  constructor <;> rfl

/-- C2 (amended): in both pipeline variants a raised exception is caught at
the function boundary and its message is reported, but the batch does not
continue: exactly the submissions strictly before the first failing one
are fully processed, and every submission from the first failure onward is
abandoned. -/
theorem C2_first_failure_aborts_batch (batch : List (Except String Unit)) :
    generate_advice_tiktok_video batch =
      ((batch.takeWhile fun r => r.toOption.isSome).length,
        ((batch.dropWhile fun r => r.toOption.isSome).head?).bind fun r =>
          match r with
          | Except.ok _ => none
          | Except.error msg => some msg) ∧
    generate_qna_tiktok_video batch =
      ((batch.takeWhile fun r => r.toOption.isSome).length,
        ((batch.dropWhile fun r => r.toOption.isSome).head?).bind fun r =>
          match r with
          | Except.ok _ => none
          | Except.error msg => some msg) := by
  exact ⟨runSubmissionLoop_eq batch, runSubmissionLoop_eq batch⟩

/-- C3 (counterexample): a segment that ends exactly at max_vid_length is
admitted and the gap pushes the cursor past the budget, so the closing
card duration min(max_length - closing_start, 3) is negative: with title
end 5.8, one segment of duration 24.2, max_vid_length 30 and gap 0.5, the
cursor reaches 30.5 and the closing duration is -0.5, refuting the claim
that the duration is never negative. -/
theorem C3_counterexample :
    (write_multi_text_to_video (29/5) [121/5] 30 (1/2)).closingStart = 61/2 ∧
    (write_multi_text_to_video (29/5) [121/5] 30 (1/2)).closingDuration = -(1/2) ∧
    (write_multi_text_to_video (29/5) [121/5] 30 (1/2)).closingDuration < 0 := by
  norm_num [write_multi_text_to_video, admitSegments, add_ending_message]

/-- C3 (amended): the closing card is always emitted and starts exactly at
the cursor left by the admission loop, that is at the title end plus the
footprint duration + gap of every admitted segment; its duration is
min(max_length - closing_start, 3) and the final output ends exactly at
closing_start + closing_duration; this duration is negative exactly when
the cursor exceeds max_length (which is reachable), there is no clamping
to zero. -/
theorem C3_closing_card (title_offset : ℚ) (durations : List ℚ)
    (max_vid_length time_offset : ℚ) :
    (write_multi_text_to_video title_offset durations max_vid_length
        time_offset).closingStart =
      title_offset +
        ((write_multi_text_to_video title_offset durations max_vid_length
          time_offset).segments.map (fun sd => sd.2 + time_offset)).sum ∧
    (write_multi_text_to_video title_offset durations max_vid_length
        time_offset).closingDuration =
      min (max_vid_length -
        (write_multi_text_to_video title_offset durations max_vid_length
          time_offset).closingStart) 3 ∧
    (write_multi_text_to_video title_offset durations max_vid_length
        time_offset).totalDuration =
      (write_multi_text_to_video title_offset durations max_vid_length
          time_offset).closingStart +
        (write_multi_text_to_video title_offset durations max_vid_length
          time_offset).closingDuration ∧
    ((write_multi_text_to_video title_offset durations max_vid_length
        time_offset).closingDuration < 0 ↔
      max_vid_length <
        (write_multi_text_to_video title_offset durations max_vid_length
          time_offset).closingStart) := by
  refine ⟨?_, ?_, ?_, ?_⟩
  · simp only [write_multi_text_to_video, add_ending_message]
    exact admitSegments_final_offset max_vid_length time_offset durations
      title_offset
  · simp [write_multi_text_to_video, add_ending_message]
  · simp [write_multi_text_to_video, add_ending_message]
  · simp only [write_multi_text_to_video, add_ending_message]
    rw [min_lt_iff]
    constructor
    · rintro (h | h) <;> linarith
    · intro h
      left
      linarith

/-- C7 (confirmed): with title duration 5, lead-in 0.8, segment durations
10, 10, 10, max_length 30 and gap 0.5, the title occupies 0 to 5.8,
segment 1 is placed at 5.8 and the cursor advances to 16.3, segment 2 is
placed at 16.3 and the cursor advances to 26.8, segment 3 is rejected
because 26.8 + 10 = 36.8 exceeds 30, and the closing card starts at 26.8
with duration min(30 - 26.8, 3) = 3, ending at 29.8. -/
theorem C7_worked_example :
    write_title_to_video 5 (8/10) = (0, 29/5) ∧
    ((29 : ℚ)/5 + 10 ≤ 30) ∧ ((163 : ℚ)/10 + 10 ≤ 30) ∧
    ¬ ((134 : ℚ)/5 + 10 ≤ 30) ∧
    write_multi_text_to_video (29/5) [10, 10, 10] 30 (1/2) =
      ⟨29/5, [(29/5, 10), (163/10, 10)], 134/5, 3, 149/5⟩ := by
  norm_num [write_title_to_video, write_multi_text_to_video, admitSegments,
    add_ending_message]

/-- C8 (confirmed): the total output duration never exceeds max_vid_length;
it is strictly below max_vid_length exactly when the natural content, the
cursor after the admitted segments plus the up-to-3-second closing card,
falls short of max_vid_length, and otherwise it equals max_vid_length
exactly. -/
theorem C8_budget_enforcement (title_offset : ℚ) (durations : List ℚ)
    (max_vid_length time_offset : ℚ) :
    (write_multi_text_to_video title_offset durations max_vid_length
        time_offset).totalDuration ≤ max_vid_length ∧
    ((write_multi_text_to_video title_offset durations max_vid_length
        time_offset).totalDuration < max_vid_length ↔
      (write_multi_text_to_video title_offset durations max_vid_length
        time_offset).closingStart + 3 < max_vid_length) := by
  simp only [write_multi_text_to_video, add_ending_message]
  rcases le_total
    (max_vid_length -
      (admitSegments max_vid_length time_offset title_offset durations).2) 3
    with h | h
  · rw [min_eq_left h]
    constructor
    · linarith
    · constructor <;> intro h2 <;> linarith
  · rw [min_eq_right h]
    constructor
    · linarith
    · constructor <;> intro h2 <;> linarith

/-- C4 (counterexample): a catalog whose only eligible background is
a.mp4, with the persisted marker also holding a.mp4 (the state left by any
previous successful selection), makes the filtered candidate list empty
and selection fails (random.choice of an empty list raises IndexError):
the marker filter is applied even when only one eligible file exists,
refuting the claim that selection always succeeds for N = 1. -/
theorem C4_counterexample :
    (["a.mp4"].filter (fun v => endswith v ".mp4")) = ["a.mp4"] ∧
    pick_random_video ["a.mp4"] (some "a.mp4") 0 = none := by
  constructor <;> rfl

/-- C4 (amended): for a catalog with exactly one eligible file f, selection
returns f exactly when the marker is absent or differs from f, and fails
when the marker equals f: the marker match is filtered out of the
candidates unconditionally, not only when more than one eligible file
exists. -/
theorem C4_single_file_selection (entries : List String) (f : String)
    (marker : Option String) (ix : ℕ)
    (h : entries.filter (fun v => endswith v ".mp4") = [f]) :
    pick_random_video entries marker ix =
      if marker = some f then none else some f := by
  cases marker with
  | none => simp [pick_random_video, h, Nat.mod_one]
  | some m =>
    by_cases hm : f = m
    · subst hm
      simp [pick_random_video, h]
    · simp [pick_random_video, h, hm, Ne.symm hm, Nat.mod_one]

/-- C4 (witness for the amended theorem). -/
theorem C4_single_file_selection_witness :
    pick_random_video ["a.mp4"] (some "b.mp4") 5 =
      (if (some "b.mp4" : Option String) = some "a.mp4" then none
        else some "a.mp4") :=
  C4_single_file_selection ["a.mp4"] "a.mp4" (some "b.mp4") 5 (by rfl)

/-- C5 (counterexample): with source duration D = 5.5 seconds and target
length T = 5 we have T < D, yet the window computation fails, because
randrange(0, int(5.5) - 5, 5) has an empty range and raises ValueError;
this refutes the claim that the computation succeeds for every T strictly
below D and returns a window. -/
theorem C5_counterexample :
    ((5 : ℚ) < 11/2) ∧ crop_video_to_tiktok_format (11/2) 5 0 = none := by
  constructor
  · norm_num
  · norm_num [crop_video_to_tiktok_format, randrange]

/-- C5 (amended): for a positive target length T, the window computation
succeeds exactly when T < ⌊D⌋: on success the returned window is
(start, start + T) where start is a nonnegative multiple of T (the step of
randrange is the subclip length, not one second) and start + T ≤ D; it
fails exactly when ⌊D⌋ ≤ T, which includes targets with T < D whenever
⌊D⌋ ≤ T < D. -/
theorem C5_window_characterization (D : ℚ) (T : ℤ) (ix : ℕ) (hT : 0 < T) :
    (T < ⌊D⌋ → ∃ s : ℤ, crop_video_to_tiktok_format D T ix = some (s, s + T) ∧
      0 ≤ s ∧ T ∣ s ∧ (s : ℚ) + (T : ℚ) ≤ D) ∧
    (⌊D⌋ ≤ T → crop_video_to_tiktok_format D T ix = none) := by
  constructor
  · intro h
    have hstop : 0 < ⌊D⌋ - T := by omega
    have hTne : T ≠ 0 := by omega
    have hmod0 : 0 ≤ (⌊D⌋ - T + T - 1) % T := Int.emod_nonneg _ hTne
    have hmod1 : (⌊D⌋ - T + T - 1) % T < T := Int.emod_lt_of_pos _ hT
    have hdm := Int.ediv_add_emod (⌊D⌋ - T + T - 1) T
    have hcountpos : 0 < (⌊D⌋ - T + T - 1) / T := by nlinarith
    have hk0 : 0 ≤ (ix : ℤ) % ((⌊D⌋ - T + T - 1) / T) :=
      Int.emod_nonneg _ (by omega)
    have hk1 : (ix : ℤ) % ((⌊D⌋ - T + T - 1) / T) < (⌊D⌋ - T + T - 1) / T :=
      Int.emod_lt_of_pos _ hcountpos
    refine ⟨T * ((ix : ℤ) % ((⌊D⌋ - T + T - 1) / T)), ?_, ?_, ⟨_, rfl⟩, ?_⟩
    · simp [crop_video_to_tiktok_format, randrange, not_le.mpr hstop]
    · exact mul_nonneg hT.le hk0
    · have hkc : T * ((ix : ℤ) % ((⌊D⌋ - T + T - 1) / T)) ≤
          T * ((⌊D⌋ - T + T - 1) / T - 1) :=
        mul_le_mul_of_nonneg_left (by omega) hT.le
      have hexp : T * ((⌊D⌋ - T + T - 1) / T - 1) =
          T * ((⌊D⌋ - T + T - 1) / T) - T := by ring
      have hle : T * ((ix : ℤ) % ((⌊D⌋ - T + T - 1) / T)) + T ≤ ⌊D⌋ := by
        linarith
      have hcast : ((T * ((ix : ℤ) % ((⌊D⌋ - T + T - 1) / T)) + T : ℤ) : ℚ) ≤
          ((⌊D⌋ : ℤ) : ℚ) := by
        exact_mod_cast hle
      have hfl : ((⌊D⌋ : ℤ) : ℚ) ≤ D := Int.floor_le D
      push_cast at hcast ⊢
      linarith
  · intro h
    have hstop : ⌊D⌋ - T ≤ 0 := by omega
    simp [crop_video_to_tiktok_format, randrange, hstop]

/-- C5 (witness for the amended theorem). -/
theorem C5_window_characterization_witness :
    ((5 : ℤ) < ⌊(20 : ℚ)⌋ → ∃ s : ℤ,
      crop_video_to_tiktok_format 20 5 3 = some (s, s + 5) ∧
      0 ≤ s ∧ (5 : ℤ) ∣ s ∧ (s : ℚ) + ((5 : ℤ) : ℚ) ≤ 20) ∧
    (⌊(20 : ℚ)⌋ ≤ 5 → crop_video_to_tiktok_format 20 5 3 = none) :=
  C5_window_characterization 20 5 3 (by norm_num)

/-- Auxiliary: indexing a nonempty list at an arbitrary index reduced
modulo its length always yields an element of the list. -/
theorem getElem_mod_length_mem {α : Type} (l : List α) (hl : l ≠ [])
    (ix : ℕ) : ∃ y, l[ix % l.length]? = some y ∧ y ∈ l := by
  have hlen : 0 < l.length := List.length_pos.mpr hl
  have hm : ix % l.length < l.length := Nat.mod_lt _ hlen
  exact ⟨l[ix % l.length], List.getElem?_eq_getElem hm, List.getElem_mem hm⟩

/-- C6 (confirmed): over a duplicate-free directory listing with at least
two eligible .mp4 files, if a first selection returned f1 (and therefore
persisted f1 as the marker), then a second selection reading marker f1
always succeeds and returns a file different from f1: the same background
is never returned twice in a row. -/
theorem C6_no_immediate_repeat (entries : List String) (m0 : Option String)
    (ix1 ix2 : ℕ) (f1 : String) (hnd : entries.Nodup)
    (hlen : 2 ≤ (entries.filter (fun v => endswith v ".mp4")).length)
    (h1 : pick_random_video entries m0 ix1 = some f1) :
    ∃ f2, pick_random_video entries (some f1) ix2 = some f2 ∧ f2 ≠ f1 := by
  have hndf : (entries.filter (fun v => endswith v ".mp4")).Nodup :=
    hnd.filter _
  obtain ⟨g, hg_mem, hg_ne⟩ :
      ∃ g ∈ entries.filter (fun v => endswith v ".mp4"), g ≠ f1 := by
    rcases hel : entries.filter (fun v => endswith v ".mp4") with _ | ⟨a, rest⟩
    · rw [hel] at hlen
      simp at hlen
    rcases rest with _ | ⟨b, tl⟩
    · rw [hel] at hlen
      simp at hlen
    rw [hel] at hndf
    have hab : a ≠ b := by
      intro hEq
      exact (List.nodup_cons.mp hndf).1 (hEq ▸ List.mem_cons_self b tl)
    by_cases hf : a = f1
    · exact ⟨b, by simp [hel], fun hb => hab (by rw [hf, hb])⟩
    · exact ⟨a, by simp [hel], hf⟩
  have hgc : g ∈ (entries.filter (fun v => endswith v ".mp4")).filter
      (fun v => v ≠ f1) :=
    List.mem_filter.mpr ⟨hg_mem, by simpa using hg_ne⟩
  have hcne : (entries.filter (fun v => endswith v ".mp4")).filter
      (fun v => v ≠ f1) ≠ [] := List.ne_nil_of_mem hgc
  obtain ⟨f2, hf2, hf2mem⟩ := getElem_mod_length_mem _ hcne ix2
  have hempty : (entries.filter (fun v => endswith v ".mp4")).isEmpty = false := by
    rcases hel : entries.filter (fun v => endswith v ".mp4") with _ | ⟨a, rest⟩
    · rw [hel] at hlen
      simp at hlen
    · rfl
  refine ⟨f2, ?_, ?_⟩
  · simp only [pick_random_video, hempty, Bool.false_eq_true, if_false]
    exact hf2
  · have := (List.mem_filter.mp hf2mem).2
    simpa using this

/-- C6 (witness). -/
theorem C6_no_immediate_repeat_witness :
    ∃ f2, pick_random_video ["a.mp4", "b.mp4"] (some "a.mp4") 7 = some f2 ∧
      f2 ≠ "a.mp4" :=
  C6_no_immediate_repeat ["a.mp4", "b.mp4"] none 0 7 "a.mp4"
    (by decide) (by decide) (by rfl)

/-- C9 (confirmed): segment planning is deterministic. The random draws of
a run influence only the chosen background and the chosen window; any two
runs of the full generation pipeline on identical submission inputs that
produce a result carry identical timeline plans (title placement, segment
admission and closing card), whatever their random draws were. -/
theorem C9_plan_independent_of_randomness (x : QnaSubmission)
    (r1 r2 : Randomness) (w1 w2 : (ℤ × ℤ) × TimelinePlan)
    (h1 : generate_video_from_qna_submission r1 x = some w1)
    (h2 : generate_video_from_qna_submission r2 x = some w2) :
    w1.2 = w2.2 := by
  unfold generate_video_from_qna_submission at h1 h2
  rcases hp1 : pick_random_video x.entries x.marker r1.choiceIx with _ | bg1 <;>
    rw [hp1] at h1 <;> dsimp only at h1
  · exact absurd h1 (by simp)
  rcases hc1 : crop_video_to_tiktok_format (x.bgDuration bg1)
      x.max_vid_length r1.cropIx with _ | win1 <;> rw [hc1] at h1 <;>
    dsimp only at h1
  · exact absurd h1 (by simp)
  rcases hp2 : pick_random_video x.entries x.marker r2.choiceIx with _ | bg2 <;>
    rw [hp2] at h2 <;> dsimp only at h2
  · exact absurd h2 (by simp)
  rcases hc2 : crop_video_to_tiktok_format (x.bgDuration bg2)
      x.max_vid_length r2.cropIx with _ | win2 <;> rw [hc2] at h2 <;>
    dsimp only at h2
  · exact absurd h2 (by simp)
  rw [← Option.some.inj h1, ← Option.some.inj h2]

/-- C9 (witness): the runs with random draws (0, 0) and (1, 5) pick
different backgrounds (a.mp4 against b.mp4) and different windows
((0, 90) against (90, 180)) yet carry the same timeline plan. -/
theorem C9_plan_independent_of_randomness_witness :
    ((((0 : ℤ), (90 : ℤ)),
        write_multi_text_to_video (29/5) [10, 10, 10] 90 (1/2)) :
      (ℤ × ℤ) × TimelinePlan).2 =
    ((((90 : ℤ), (180 : ℤ)),
        write_multi_text_to_video (29/5) [10, 10, 10] 90 (1/2)) :
      (ℤ × ℤ) × TimelinePlan).2 := by
  apply C9_plan_independent_of_randomness qnaExample ⟨0, 0⟩ ⟨1, 5⟩
  · have hp : pick_random_video qnaExample.entries qnaExample.marker 0 =
        some "a.mp4" := by rfl
    have hc : crop_video_to_tiktok_format (qnaExample.bgDuration "a.mp4")
        qnaExample.max_vid_length 0 = some (0, 90) := by
      norm_num [qnaExample, crop_video_to_tiktok_format, randrange]
    simp only [generate_video_from_qna_submission, hp, hc]
    norm_num [qnaExample, write_title_to_video]
  · have hp : pick_random_video qnaExample.entries qnaExample.marker 1 =
        some "b.mp4" := by rfl
    have hc : crop_video_to_tiktok_format (qnaExample.bgDuration "b.mp4")
        qnaExample.max_vid_length 5 = some (90, 180) := by
      norm_num [qnaExample, crop_video_to_tiktok_format, randrange]
    simp only [generate_video_from_qna_submission, hp, hc]
    norm_num [qnaExample, write_title_to_video]

/-- Auxiliary: substituting the empty string for every single star is the
same as deleting every star character. -/
theorem subStar_nil_eq_filter (l : List Char) :
    subStar [] l = l.filter (fun c => c ≠ '*') := by
  induction l with
  | nil => rfl
  | cons c rest ih =>
    by_cases h : c = '*' <;> simp [subStar, h, ih]

/-- C10 (confirmed): sanitize_sentence_for_gtts returns its input with
every star character deleted and nothing else changed; in particular a
censored run of two or more stars is deleted entirely, and the beep
substitution computed into beeped_sentence is discarded, never reaching
the output. -/
theorem C10_sanitize_deletes_stars (censored_sentence : String) :
    sanitize_sentence_for_gtts censored_sentence =
      String.mk (censored_sentence.data.filter (fun c => c ≠ '*')) := by
  simp [sanitize_sentence_for_gtts, subStar_nil_eq_filter]

end AutomatedTikToks
